import Mathlib

/-!
Shallow embedding of the fitness-app repository's two computational cores:

* the nutrition-entry calculator, embedded twice because the repository has
  two distinct handlers for it:
  - `POST /entries` in `src/backend/routes/nutrition/nutrition.js`
    (the handler mounted by `routes/index.js`), prefixed `nj`;
  - `POST /nutrition-entries` in the legacy monolith
    `src/backend/routes/routes.js`, prefixed `rj`;
* the goal-progress tracker, `POST /:id/progress` in
  `src/backend/routes/goals/goals.js`.

JavaScript numbers are modelled as exact rationals (ℚ); `Math.round` is
`jsRound` (round half toward +∞, which is JS semantics and agrees with
half-up on the non-negative values arising here).  Dates are abstract day
stamps (ℕ): the handler receives the current time `now` and an optional
client-supplied observation date.  The Mongoose store is modelled as an
explicit list, and the `await x.save()` / thrown-exception control flow of a
handler is modelled by explicit result records, so that "what got persisted"
and "what the caller saw" are both visible.
-/

namespace FitnessApp

/-- JavaScript `Math.round`: round half toward positive infinity. -/
def jsRound (q : ℚ) : ℚ := ((⌊q + 1/2⌋ : ℤ) : ℚ)

/-! ## Data model: Food (from `src/backend/models/schemas/Food.js`) -/

/-- The `nutritionPer100g` sub-document of a Food record. -/
structure NutritionPer100g where
  calories : ℚ
  protein : ℚ
  carbohydrates : ℚ
  fat : ℚ
deriving DecidableEq, Repr

/-- A Food record (only the field the computations read). -/
structure Food where
  nutritionPer100g : NutritionPer100g
deriving DecidableEq, Repr

/-- Food ids; the handlers treat them as plain keys. -/
abbrev FoodId := ℕ

/-- The food collection, as an association list. -/
abbrev FoodDb := List (FoodId × Food)

/-- `Food.findById`: first record with the given id, if any. -/
def findFoodById (db : FoodDb) (id : FoodId) : Option Food :=
  (db.find? (fun p => p.1 == id)).map (·.2)

/-! ## Nutrition-entry request shape -/

/-- One food line item of the request body (`meals.*.foods.*`). -/
structure FoodItemIn where
  food : FoodId
  quantity : ℚ
  unit : String
deriving DecidableEq, Repr

/-- One meal of the request body. -/
structure MealIn where
  type : String
  foods : List FoodItemIn
deriving DecidableEq, Repr

/-- A calories/protein/carbohydrates/fat quadruple (used both for the
`dailyTotals` object and for per-loop accumulators). -/
structure DailyTotals where
  calories : ℚ
  protein : ℚ
  carbohydrates : ℚ
  fat : ℚ
deriving DecidableEq, Repr

/-! ## `POST /entries` (`src/backend/routes/nutrition/nutrition.js:215`) -/

/-- A processed food line item as pushed onto `processedFoods`
(nutrition.js:254): the raw products `per100g * quantity/100`,
with no rounding anywhere. -/
structure FoodItemOut where
  food : FoodId
  quantity : ℚ
  unit : String
  calories : ℚ
  protein : ℚ
  carbohydrates : ℚ
  fat : ℚ
deriving DecidableEq, Repr

/-- nutrition.js:246-259 — derive one line item from the Food record found. -/
def njItem (it : FoodItemIn) (food : Food) : FoodItemOut :=
  let multiplier := it.quantity / 100
  { food := it.food
    quantity := it.quantity
    unit := it.unit
    calories := food.nutritionPer100g.calories * multiplier
    protein := food.nutritionPer100g.protein * multiplier
    carbohydrates := food.nutritionPer100g.carbohydrates * multiplier
    fat := food.nutritionPer100g.fat * multiplier }

/-- A processed meal (nutrition.js:268-273). -/
structure MealOut where
  type : String
  foods : List FoodItemOut
  totalCalories : ℚ
deriving DecidableEq, Repr

/-- nutrition.js:239-266 — the inner `for (const foodItem of meal.foods)`
loop, carrying the `processedFoods`, `mealCalories` and `dailyTotals`
accumulators exactly as the source mutates them; a missing Food id aborts
the whole computation with that id (`return res.status(400)`). -/
def njFoodsGo (db : FoodDb) (items : List FoodItemIn)
    (processedFoods : List FoodItemOut) (mealCalories : ℚ)
    (daily : DailyTotals) :
    Except FoodId (List FoodItemOut × ℚ × DailyTotals) :=
  match items with
  | [] => .ok (processedFoods, mealCalories, daily)
  | it :: rest =>
    match findFoodById db it.food with
    | none => .error it.food
    | some food =>
      let p := njItem it food
      njFoodsGo db rest (processedFoods ++ [p]) (mealCalories + p.calories)
        { calories := daily.calories + p.calories
          protein := daily.protein + p.protein
          carbohydrates := daily.carbohydrates + p.carbohydrates
          fat := daily.fat + p.fat }

/-- nutrition.js:235-274 — the outer `for (const meal of meals)` loop. -/
def njMealsGo (db : FoodDb) (meals : List MealIn)
    (processedMeals : List MealOut) (daily : DailyTotals) :
    Except FoodId (List MealOut × DailyTotals) :=
  match meals with
  | [] => .ok (processedMeals, daily)
  | m :: rest =>
    match njFoodsGo db m.foods [] 0 daily with
    | .error e => .error e
    | .ok (pf, mealCalories, daily') =>
      njMealsGo db rest
        (processedMeals ++ [{ type := m.type, foods := pf, totalCalories := mealCalories }])
        daily'

/-- The whole calculation phase of `POST /entries`: both loops, started on
empty accumulators (`dailyTotals = { 0, 0, 0, 0 }`, nutrition.js:233). -/
def njCalc (db : FoodDb) (meals : List MealIn) :
    Except FoodId (List MealOut × DailyTotals) :=
  njMealsGo db meals [] ⟨0, 0, 0, 0⟩

/-- A persisted nutrition entry (one user's entry for one date). -/
structure NutritionEntry where
  date : ℕ
  meals : List MealOut
  dailyTotals : DailyTotals
deriving DecidableEq, Repr

/-- nutrition.js:277-300 — find-or-create by date: the first entry with the
request's date is overwritten in place, otherwise a new entry is appended. -/
def upsertByDate (store : List NutritionEntry) (entry : NutritionEntry) :
    List NutritionEntry :=
  match store with
  | [] => [entry]
  | e :: rest =>
    if e.date = entry.date then entry :: rest
    else e :: upsertByDate rest entry

/-- The full `POST /entries` handler: calculation phase, then persistence.
On a missing food id the handler returns before issuing any store write, so
the error branch carries no store at all. -/
def njPostEntries (db : FoodDb) (store : List NutritionEntry) (date : ℕ)
    (meals : List MealIn) :
    Except FoodId (List NutritionEntry × NutritionEntry) :=
  match njCalc db meals with
  | .error e => .error e
  | .ok (pm, daily) =>
    let entry : NutritionEntry := ⟨date, pm, daily⟩
    .ok (upsertByDate store entry, entry)

/-- The store after a `POST /entries` request: unchanged when the handler
rejected the request. -/
def njStoreAfter (db : FoodDb) (store : List NutritionEntry) (date : ℕ)
    (meals : List MealIn) : List NutritionEntry :=
  match njPostEntries db store date meals with
  | .error _ => store
  | .ok (store', _) => store'

/-! ## `POST /nutrition-entries` (`src/backend/routes/routes.js:961`) -/

/-- routes.js:989-994 — the rounded derived fields of one resolved food line:
calories rounded to a whole number, macros to one decimal place. -/
def rjItemFields (food : Food) (quantity : ℚ) : DailyTotals :=
  let multiplier := quantity / 100
  { calories := jsRound (food.nutritionPer100g.calories * multiplier)
    protein := jsRound (food.nutritionPer100g.protein * multiplier * 10) / 10
    carbohydrates := jsRound (food.nutritionPer100g.carbohydrates * multiplier * 10) / 10
    fat := jsRound (food.nutritionPer100g.fat * multiplier * 10) / 10 }

/-- A food line as it ends up inside the saved entry of the legacy handler.
When the food id did not resolve, `if (!food) continue;` (routes.js:987)
leaves the line without any derived fields, hence the `Option`s. -/
structure RjFoodOut where
  food : FoodId
  quantity : ℚ
  unit : String
  calories : Option ℚ
  protein : Option ℚ
  carbohydrates : Option ℚ
  fat : Option ℚ
deriving DecidableEq, Repr

/-- A meal as saved by the legacy handler (`meal.totalCalories`,
routes.js:1002). -/
structure RjMealOut where
  type : String
  foods : List RjFoodOut
  totalCalories : ℚ
deriving DecidableEq, Repr

/-- routes.js:985-1000 — the inner food loop of the legacy handler: an
unresolved id is silently skipped, a resolved one gets the rounded fields
and is accumulated into `mealTotals`. -/
def rjFoodsGo (db : FoodDb) (items : List FoodItemIn)
    (acc : List RjFoodOut) (mealTotals : DailyTotals) :
    List RjFoodOut × DailyTotals :=
  match items with
  | [] => (acc, mealTotals)
  | it :: rest =>
    match findFoodById db it.food with
    | none =>
      rjFoodsGo db rest
        (acc ++ [{ food := it.food, quantity := it.quantity, unit := it.unit
                   calories := none, protein := none
                   carbohydrates := none, fat := none }])
        mealTotals
    | some food =>
      let d := rjItemFields food it.quantity
      rjFoodsGo db rest
        (acc ++ [{ food := it.food, quantity := it.quantity, unit := it.unit
                   calories := some d.calories, protein := some d.protein
                   carbohydrates := some d.carbohydrates, fat := some d.fat }])
        { calories := mealTotals.calories + d.calories
          protein := mealTotals.protein + d.protein
          carbohydrates := mealTotals.carbohydrates + d.carbohydrates
          fat := mealTotals.fat + d.fat }

/-- routes.js:983-1007 — the outer meal loop of the legacy handler:
`meal.totalCalories = Math.round(mealTotals.calories)` and the unrounded
`mealTotals` are accumulated into `dailyTotals`. -/
def rjMealsGo (db : FoodDb) (meals : List MealIn)
    (acc : List RjMealOut) (daily : DailyTotals) :
    List RjMealOut × DailyTotals :=
  match meals with
  | [] => (acc, daily)
  | m :: rest =>
    let r := rjFoodsGo db m.foods [] ⟨0, 0, 0, 0⟩
    rjMealsGo db rest
      (acc ++ [{ type := m.type, foods := r.1, totalCalories := jsRound r.2.calories }])
      { calories := daily.calories + r.2.calories
        protein := daily.protein + r.2.protein
        carbohydrates := daily.carbohydrates + r.2.carbohydrates
        fat := daily.fat + r.2.fat }

/-- The entry built and saved by the legacy handler. -/
structure RjEntry where
  date : ℕ
  meals : List RjMealOut
  dailyTotals : DailyTotals
deriving DecidableEq, Repr

/-- The whole `POST /nutrition-entries` computation (routes.js:979-1016):
it has no failure outcome — every request produces a saved entry, with
`dailyTotals` rounded once more at the end (routes.js:1009-1014). -/
def rjPostNutritionEntries (db : FoodDb) (date : ℕ) (meals : List MealIn) :
    RjEntry :=
  let r := rjMealsGo db meals [] ⟨0, 0, 0, 0⟩
  { date := date
    meals := r.1
    dailyTotals :=
      { calories := jsRound r.2.calories
        protein := jsRound (r.2.protein * 10) / 10
        carbohydrates := jsRound (r.2.carbohydrates * 10) / 10
        fat := jsRound (r.2.fat * 10) / 10 } }

/-! ## Goal model (`src/backend/models/schemas/Goal.js`, staged as
`src/unnamed/part_001:79-142` and identical to the monolith's goalSchema).
The schema defines milestone subdocuments `{title, value, achieved,
achievedDate}` and no `progressHistory` or `completedAt` path at all, while
the progress handler in `src/backend/routes/goals/goals.js` (and the repo's
API documentation) reads and writes `goal.progressHistory`,
`goal.completedAt`, `milestone.targetValue`, `milestone.isCompleted` and
`milestone.completedAt`.  The embedding models the documents the store
actually holds — the schema's shape — and the handler's behaviour on them
under Mongoose strict mode, where reading a path the schema does not define
yields `undefined`.  The repo's own API_TESTING_RESULTS.md rates the goals
module 0% functional because of exactly this model/route field mismatch. -/

inductive GoalStatus
  | active
  | paused
  | completed
  | cancelled
deriving DecidableEq, Repr

/-- A milestone subdocument, with the fields the schema defines. -/
structure Milestone where
  title : String
  value : ℚ
  achieved : Bool
  achievedDate : Option ℕ
deriving DecidableEq, Repr

/-- A Goal document (the schema fields the progress route touches). -/
structure Goal where
  currentValue : ℚ
  targetValue : ℚ
  status : GoalStatus
  milestones : List Milestone
deriving DecidableEq, Repr

/-- goals.js:465-468 `calculateGoalProgress`.  `targetValue` and
`currentValue` are schema paths, so this helper computes as written; it is
also what the goal read endpoints report. -/
def calculateGoalProgress (g : Goal) : ℚ :=
  if g.targetValue = 0 then 0
  else min (g.currentValue / g.targetValue * 100) 100

/-- The JSON body a successful `POST /:id/progress` response would carry
(goals.js:267-273).  No run ever produces one — see `updateProgressRun`. -/
structure ProgressOutput where
  goal : Goal
  progressPercentage : ℚ
  completedMilestones : List Milestone
  isGoalCompleted : Bool
deriving Repr

/-- One run of the progress handler: `saved` is the goal state written by
`goal.save()` (`none` when control never reaches the save), `response` is
what the caller received — `Except.error` covers both the 400 responses and
the catch-all 500 produced by a thrown exception. -/
structure RunResult where
  saved : Option Goal
  response : Except String ProgressOutput

/-- goals.js:211-277, `POST /:id/progress` on a goal already fetched for
the requesting user; `value`, `notes`, `date` are the request body, `now`
the wall clock, `notifOk` whether a `Notification.save()` would succeed
during this request.  After the status guard (goals.js:230-232) the handler
mutates `goal.currentValue` in memory and builds the progress record, then
calls `goal.progressHistory.push(progressEntry)` (goals.js:245).
`progressHistory` is not a path of goalSchema, so under Mongoose strict
mode the read yields `undefined` and `.push` raises a TypeError; the
route's catch (goals.js:274-276) turns it into the 500 response "Failed to
update progress".  Control therefore never reaches the milestone check
(goals.js:248), the completion check (goals.js:251-256), `goal.save()`
(goals.js:258) or the notification calls (goals.js:255 and 262): no
active-goal progress update ever persists anything, and the outcome does
not depend on `value`, on the dates or on `notifOk`. -/
def updateProgressRun (g : Goal) (value : ℚ) (notes : Option String)
    (date : Option ℕ) (now : ℕ) (notifOk : Bool) : RunResult :=
  if g.status ≠ GoalStatus.active then
    ⟨none, .error "Cannot update progress on inactive goal"⟩
  else
    ⟨none, .error "Failed to update progress"⟩

/-! ## Concrete data used by witnesses and counterexamples -/

/-- A rational that is a whole number (the image of `Math.round`). -/
def qIsInt (q : ℚ) : Prop := ∃ n : ℤ, q = (n : ℚ)

def wFood : Food := ⟨⟨200, 10, 20, 5⟩⟩

def wDbC3 : FoodDb := [(1, wFood)]

def wMealsC3 : List MealIn :=
  [{ type := "lunch", foods := [{ food := 1, quantity := 100, unit := "g" },
                                { food := 2, quantity := 100, unit := "g" }] }]

def wStoreC3 : List NutritionEntry := [{ date := 9, meals := [], dailyTotals := ⟨1, 2, 3, 4⟩ }]

def cDbC1 : FoodDb := [(1, ⟨⟨1, 1, 1, 1⟩⟩)]

def cMealsC1 : List MealIn :=
  [{ type := "breakfast", foods := [{ food := 1, quantity := 150, unit := "g" }] }]

def wFoodC1 : Food := ⟨⟨200, 10, 20, 5⟩⟩

def wFoodC1b : Food := ⟨⟨200, 1, 2, 3⟩⟩

def wDbC6 : FoodDb := [(1, ⟨⟨100, 5, 10, 2⟩⟩), (2, ⟨⟨50, 1, 2, 3⟩⟩)]

def wMealsC6 : List MealIn :=
  [{ type := "breakfast", foods := [{ food := 1, quantity := 50, unit := "g" }] },
   { type := "dinner", foods := [{ food := 2, quantity := 200, unit := "g" }] }]

def wPmC6 : List MealOut :=
  [{ type := "breakfast"
     foods := [{ food := 1, quantity := 50, unit := "g"
                 calories := 50, protein := 5/2, carbohydrates := 5, fat := 1 }]
     totalCalories := 50 },
   { type := "dinner"
     foods := [{ food := 2, quantity := 200, unit := "g"
                 calories := 100, protein := 2, carbohydrates := 4, fat := 6 }]
     totalCalories := 100 }]

def wDtC6 : DailyTotals := ⟨150, 9/2, 9, 7⟩

def wGoalC7 : Goal :=
  { currentValue := 42, targetValue := 100, status := GoalStatus.completed
    milestones := [] }

def wGoalC4 : Goal :=
  { currentValue := 10, targetValue := 100, status := GoalStatus.active
    milestones := [] }

def wGoalC5 : Goal :=
  { currentValue := 5, targetValue := 0, status := GoalStatus.active
    milestones := [] }

def wGoalC5b : Goal :=
  { currentValue := 150, targetValue := 100, status := GoalStatus.active
    milestones := [] }

def wGoalC8 : Goal :=
  { currentValue := 5, targetValue := 40, status := GoalStatus.active
    milestones := [{ title := "first", value := 3, achieved := true, achievedDate := some 1 }] }

def wGoalC9 : Goal :=
  { currentValue := 0, targetValue := 50, status := GoalStatus.active
    milestones := [] }

def cGoalC2 : Goal :=
  { currentValue := 0, targetValue := 100, status := GoalStatus.active
    milestones := [{ title := "half", value := 50, achieved := false, achievedDate := none }] }

def cGoalC10 : Goal :=
  { currentValue := 10, targetValue := 100, status := GoalStatus.active
    milestones := [{ title := "third", value := 30, achieved := false, achievedDate := none }] }

/-- C7: updating progress on a non-active goal is rejected with the
InvalidState response and nothing is persisted. -/
theorem progress_inactive_rejected (g : Goal) (value : ℚ) (notes : Option String)
    (date : Option ℕ) (now : ℕ) (notifOk : Bool)
    (h : g.status ≠ GoalStatus.active) :
    updateProgressRun g value notes date now notifOk =
      ⟨none, .error "Cannot update progress on inactive goal"⟩ := by
  simp [updateProgressRun, h]

theorem progress_inactive_rejected_witness :
    wGoalC7.status ≠ GoalStatus.active
      ∧ updateProgressRun wGoalC7 50 none none 3 true =
          ⟨none, .error "Cannot update progress on inactive goal"⟩ :=
  ⟨by decide, progress_inactive_rejected wGoalC7 50 none none 3 true (by decide)⟩

lemma calculateGoalProgress_le (g : Goal) : calculateGoalProgress g ≤ 100 := by
  unfold calculateGoalProgress
  split
  · norm_num
  · exact min_le_right _ _

lemma jsRound_qIsInt (q : ℚ) : qIsInt (jsRound q) := ⟨_, rfl⟩

lemma jsRound_eq_self (q : ℚ) (h : qIsInt q) : jsRound q = q := by
  rcases h with ⟨n, rfl⟩
  unfold jsRound
  rw [add_comm, Int.floor_add_int]
  norm_num

lemma qIsInt_add {a b : ℚ} (ha : qIsInt a) (hb : qIsInt b) : qIsInt (a + b) := by
  rcases ha with ⟨n, rfl⟩
  rcases hb with ⟨m, rfl⟩
  exact ⟨n + m, by push_cast; ring⟩

lemma qIsInt_zero : qIsInt 0 := ⟨0, by norm_num⟩

lemma qIsInt_sum (l : List ℚ) (h : ∀ x ∈ l, qIsInt x) : qIsInt l.sum := by
  induction l with
  | nil => simpa using qIsInt_zero
  | cons a t ih =>
    rw [List.sum_cons]
    exact qIsInt_add (h a (by simp)) (ih fun x hx => h x (by simp [hx]))

lemma jsRound_abs_le (q : ℚ) : |jsRound q - q| ≤ 1/2 := by
  unfold jsRound
  rw [abs_le]
  constructor
  · linarith [Int.sub_one_lt_floor (q + 1/2)]
  · linarith [Int.floor_le (q + 1/2)]

lemma jsRound_tenth_abs (x : ℚ) : |jsRound (x * 10) / 10 - x| ≤ 1/20 := by
  have h := jsRound_abs_le (x * 10)
  have he : jsRound (x * 10) / 10 - x = (jsRound (x * 10) - x * 10) / 10 := by ring
  rw [he, abs_div, abs_of_pos (by norm_num : (0:ℚ) < 10)]
  linarith

lemma njFoodsGo_error (db : FoodDb) :
    ∀ (items : List FoodItemIn) (acc : List FoodItemOut) (mc : ℚ) (d : DailyTotals)
      (e : FoodId), njFoodsGo db items acc mc d = .error e → findFoodById db e = none := by
  intro items
  induction items with
  | nil => intro acc mc d e h; simp [njFoodsGo] at h
  | cons it rest ih =>
    intro acc mc d e h
    cases hf : findFoodById db it.food with
    | none =>
      simp only [njFoodsGo, hf] at h
      cases h
      exact hf
    | some food =>
      simp only [njFoodsGo, hf] at h
      exact ih _ _ _ _ h

lemma njFoodsGo_missing (db : FoodDb) :
    ∀ (items : List FoodItemIn) (acc : List FoodItemOut) (mc : ℚ) (d : DailyTotals),
      (∃ it ∈ items, findFoodById db it.food = none) →
      ∃ e, njFoodsGo db items acc mc d = .error e := by
  intro items
  induction items with
  | nil => intro acc mc d h; simp at h
  | cons it rest ih =>
    intro acc mc d h
    cases hf : findFoodById db it.food with
    | none => exact ⟨it.food, by simp only [njFoodsGo, hf]⟩
    | some food =>
      rcases h with ⟨it₀, hmem, hmiss⟩
      rcases List.mem_cons.mp hmem with h0 | h0
      · subst h0
        rw [hf] at hmiss
        cases hmiss
      · rcases ih _ _ _ ⟨it₀, h0, hmiss⟩ with ⟨e, he⟩
        exact ⟨e, by simp only [njFoodsGo, hf]; exact he⟩

lemma njMealsGo_error (db : FoodDb) :
    ∀ (meals : List MealIn) (accM : List MealOut) (d : DailyTotals) (e : FoodId),
      njMealsGo db meals accM d = .error e → findFoodById db e = none := by
  intro meals
  induction meals with
  | nil => intro accM d e h; simp [njMealsGo] at h
  | cons m rest ih =>
    intro accM d e h
    cases hr : njFoodsGo db m.foods [] 0 d with
    | error e' =>
      simp only [njMealsGo, hr] at h
      cases h
      exact njFoodsGo_error db m.foods [] 0 d _ hr
    | ok r =>
      rcases r with ⟨pf, mcal, d1⟩
      simp only [njMealsGo, hr] at h
      exact ih _ _ _ h

lemma njMealsGo_missing (db : FoodDb) :
    ∀ (meals : List MealIn) (accM : List MealOut) (d : DailyTotals),
      (∃ m ∈ meals, ∃ it ∈ m.foods, findFoodById db it.food = none) →
      ∃ e, njMealsGo db meals accM d = .error e := by
  intro meals
  induction meals with
  | nil => intro accM d h; simp at h
  | cons m rest ih =>
    intro accM d h
    rcases h with ⟨m₀, hmem, hit⟩
    rcases List.mem_cons.mp hmem with h0 | h0
    · subst h0
      rcases njFoodsGo_missing db m₀.foods [] 0 d hit with ⟨e, he⟩
      exact ⟨e, by simp only [njMealsGo, he]⟩
    · cases hr : njFoodsGo db m.foods [] 0 d with
      | error e' => exact ⟨e', by simp only [njMealsGo, hr]⟩
      | ok r =>
        rcases r with ⟨pf, mcal, d1⟩
        rcases ih _ _ ⟨m₀, h0, hit⟩ with ⟨e, he⟩
        exact ⟨e, by simp only [njMealsGo, hr]; exact he⟩

/-- C3 (mounted handler): any unresolvable food id aborts the whole write:
the error identifies a missing id and the store is untouched. -/
theorem missing_food_rejects (db : FoodDb) (store : List NutritionEntry)
    (date : ℕ) (meals : List MealIn)
    (h : ∃ m ∈ meals, ∃ it ∈ m.foods, findFoodById db it.food = none) :
    (∃ e, njPostEntries db store date meals = Except.error e ∧ findFoodById db e = none)
      ∧ njStoreAfter db store date meals = store := by
  rcases njMealsGo_missing db meals [] ⟨0, 0, 0, 0⟩ h with ⟨e, he⟩
  have hmiss := njMealsGo_error db meals [] ⟨0, 0, 0, 0⟩ e he
  have hpost : njPostEntries db store date meals = Except.error e := by
    simp only [njPostEntries, njCalc, he]
  exact ⟨⟨e, hpost, hmiss⟩, by simp only [njStoreAfter, hpost]⟩

theorem missing_food_rejects_witness :
    findFoodById wDbC3 2 = none
      ∧ findFoodById wDbC3 1 = some wFood
      ∧ njPostEntries wDbC3 wStoreC3 3 wMealsC3 = Except.error 2
      ∧ njStoreAfter wDbC3 wStoreC3 3 wMealsC3 = wStoreC3 := by
  have h : ∃ m ∈ wMealsC3, ∃ it ∈ m.foods, findFoodById wDbC3 it.food = none := by
    refine ⟨wMealsC3.get ⟨0, by decide⟩, by simp [wMealsC3], ?_⟩
    exact ⟨{ food := 2, quantity := 100, unit := "g" }, by simp [wMealsC3], by decide⟩
  have hc := missing_food_rejects wDbC3 wStoreC3 3 wMealsC3 h
  refine ⟨by decide, by decide, ?_, hc.2⟩
  simp [njPostEntries, njCalc, njMealsGo, njFoodsGo, findFoodById, wDbC3, wMealsC3]

/-- C3 counterexample: the legacy `POST /nutrition-entries` write silently
skips the unresolvable food id and still produces (and saves) an entry. -/
theorem legacy_skip_counterexample :
    findFoodById wDbC3 2 = none
      ∧ rjPostNutritionEntries wDbC3 3 wMealsC3 =
          { date := 3
            meals := [{ type := "lunch"
                        foods := [{ food := 1, quantity := 100, unit := "g"
                                    calories := some 200, protein := some 10
                                    carbohydrates := some 20, fat := some 5 },
                                  { food := 2, quantity := 100, unit := "g"
                                    calories := none, protein := none
                                    carbohydrates := none, fat := none }]
                        totalCalories := 200 }]
            dailyTotals := ⟨200, 10, 20, 5⟩ } := by
  refine ⟨by decide, ?_⟩
  norm_num [rjPostNutritionEntries, rjMealsGo, rjFoodsGo, rjItemFields, jsRound,
    findFoodById, wDbC3, wMealsC3, wFood]

/-- C1 counterexample: the mounted `POST /entries` write stores the raw
product 1 * 150/100 = 1.5 as the item's calories — not a whole number. -/
theorem nutrition_no_rounding_counterexample :
    njCalc cDbC1 cMealsC1 =
        Except.ok ([{ type := "breakfast"
                      foods := [{ food := 1, quantity := 150, unit := "g"
                                  calories := 3/2, protein := 3/2
                                  carbohydrates := 3/2, fat := 3/2 }]
                      totalCalories := 3/2 }],
                   { calories := 3/2, protein := 3/2, carbohydrates := 3/2, fat := 3/2 })
      ∧ jsRound (3/2) = 2
      ∧ ((3:ℚ)/2) ≠ 2 := by
  refine ⟨?_, ?_, by norm_num⟩
  · norm_num [njCalc, njMealsGo, njFoodsGo, njItem, findFoodById, cDbC1, cMealsC1]
  · norm_num [jsRound]

/-- C1 amended: the legacy write's per-item derived fields are the claimed
roundings (whole calories, one-decimal macros, each within half a unit of
the exact product), each depending only on its own per-100g value. -/
theorem item_rounding_spec (food : Food) (q : ℚ) :
    qIsInt ((rjItemFields food q).calories)
      ∧ |(rjItemFields food q).calories - food.nutritionPer100g.calories * (q / 100)| ≤ 1/2
      ∧ qIsInt ((rjItemFields food q).protein * 10)
      ∧ |(rjItemFields food q).protein - food.nutritionPer100g.protein * (q / 100)| ≤ 1/20
      ∧ qIsInt ((rjItemFields food q).carbohydrates * 10)
      ∧ |(rjItemFields food q).carbohydrates - food.nutritionPer100g.carbohydrates * (q / 100)| ≤ 1/20
      ∧ qIsInt ((rjItemFields food q).fat * 10)
      ∧ |(rjItemFields food q).fat - food.nutritionPer100g.fat * (q / 100)| ≤ 1/20
      ∧ (∀ f' : Food, f'.nutritionPer100g.calories = food.nutritionPer100g.calories →
          (rjItemFields f' q).calories = (rjItemFields food q).calories)
      ∧ (∀ f' : Food, f'.nutritionPer100g.protein = food.nutritionPer100g.protein →
          (rjItemFields f' q).protein = (rjItemFields food q).protein)
      ∧ (∀ f' : Food, f'.nutritionPer100g.carbohydrates = food.nutritionPer100g.carbohydrates →
          (rjItemFields f' q).carbohydrates = (rjItemFields food q).carbohydrates)
      ∧ (∀ f' : Food, f'.nutritionPer100g.fat = food.nutritionPer100g.fat →
          (rjItemFields f' q).fat = (rjItemFields food q).fat) := by
  have h10 : (10:ℚ) ≠ 0 := by norm_num
  refine ⟨jsRound_qIsInt _, jsRound_abs_le _, ?_, jsRound_tenth_abs _, ?_,
    jsRound_tenth_abs _, ?_, jsRound_tenth_abs _, ?_, ?_, ?_, ?_⟩
  · rw [rjItemFields]
    simp only [div_mul_cancel₀ _ h10]
    exact jsRound_qIsInt _
  · rw [rjItemFields]
    simp only [div_mul_cancel₀ _ h10]
    exact jsRound_qIsInt _
  · rw [rjItemFields]
    simp only [div_mul_cancel₀ _ h10]
    exact jsRound_qIsInt _
  all_goals intro f' hf
  all_goals simp only [rjItemFields, hf]

theorem item_rounding_spec_witness :
    qIsInt ((rjItemFields wFoodC1 150).calories)
      ∧ |(rjItemFields wFoodC1 150).calories - wFoodC1.nutritionPer100g.calories * (150 / 100)| ≤ 1/2
      ∧ qIsInt ((rjItemFields wFoodC1 150).protein * 10)
      ∧ |(rjItemFields wFoodC1 150).protein - wFoodC1.nutritionPer100g.protein * (150 / 100)| ≤ 1/20
      ∧ wFoodC1b.nutritionPer100g.calories = wFoodC1.nutritionPer100g.calories
      ∧ (rjItemFields wFoodC1b 150).calories = (rjItemFields wFoodC1 150).calories := by
  have hc := item_rounding_spec wFoodC1 150
  exact ⟨hc.1, hc.2.1, hc.2.2.1, hc.2.2.2.1, by norm_num [wFoodC1, wFoodC1b],
    hc.2.2.2.2.2.2.2.2.1 wFoodC1b (by norm_num [wFoodC1, wFoodC1b])⟩

lemma njFoodsGo_ok (db : FoodDb) :
    ∀ (items : List FoodItemIn) (acc : List FoodItemOut) (mc : ℚ) (d : DailyTotals)
      (pf : List FoodItemOut) (mc' : ℚ) (d' : DailyTotals),
      njFoodsGo db items acc mc d = .ok (pf, mc', d') →
      ∃ pnew, pf = acc ++ pnew
        ∧ mc' = mc + (pnew.map FoodItemOut.calories).sum
        ∧ d'.calories = d.calories + (pnew.map FoodItemOut.calories).sum
        ∧ d'.protein = d.protein + (pnew.map FoodItemOut.protein).sum
        ∧ d'.carbohydrates = d.carbohydrates + (pnew.map FoodItemOut.carbohydrates).sum
        ∧ d'.fat = d.fat + (pnew.map FoodItemOut.fat).sum := by
  intro items
  induction items with
  | nil =>
    intro acc mc d pf mc' d' h
    simp only [njFoodsGo, Except.ok.injEq, Prod.mk.injEq] at h
    rcases h with ⟨h1, h2, h3⟩
    subst h1
    subst h3
    exact ⟨[], by simp, by simp [h2], by simp, by simp, by simp, by simp⟩
  | cons it rest ih =>
    intro acc mc d pf mc' d' h
    cases hf : findFoodById db it.food with
    | none =>
      simp only [njFoodsGo, hf] at h
      cases h
    | some food =>
      simp only [njFoodsGo, hf] at h
      rcases ih _ _ _ _ _ _ h with ⟨pnew, hpf, hmc, hcal, hpro, hcarb, hfat⟩
      refine ⟨njItem it food :: pnew, by simpa using hpf, ?_, ?_, ?_, ?_, ?_⟩ <;>
        simp only [List.map_cons, List.sum_cons, hmc, hcal, hpro, hcarb, hfat] <;> ring

lemma njMealsGo_ok (db : FoodDb) :
    ∀ (meals : List MealIn) (accM : List MealOut) (d : DailyTotals)
      (pm : List MealOut) (dT : DailyTotals),
      njMealsGo db meals accM d = .ok (pm, dT) →
      ∃ msnew, pm = accM ++ msnew
        ∧ (∀ mo ∈ msnew, mo.totalCalories = (mo.foods.map FoodItemOut.calories).sum)
        ∧ dT.calories = d.calories +
            (msnew.map (fun mo => (mo.foods.map FoodItemOut.calories).sum)).sum
        ∧ dT.protein = d.protein +
            (msnew.map (fun mo => (mo.foods.map FoodItemOut.protein).sum)).sum
        ∧ dT.carbohydrates = d.carbohydrates +
            (msnew.map (fun mo => (mo.foods.map FoodItemOut.carbohydrates).sum)).sum
        ∧ dT.fat = d.fat +
            (msnew.map (fun mo => (mo.foods.map FoodItemOut.fat).sum)).sum := by
  intro meals
  induction meals with
  | nil =>
    intro accM d pm dT h
    simp only [njMealsGo, Except.ok.injEq, Prod.mk.injEq] at h
    rcases h with ⟨h1, h2⟩
    subst h1
    subst h2
    exact ⟨[], by simp, by simp, by simp, by simp, by simp, by simp⟩
  | cons m rest ih =>
    intro accM d pm dT h
    cases hr : njFoodsGo db m.foods [] 0 d with
    | error e =>
      simp only [njMealsGo, hr] at h
      cases h
    | ok r =>
      rcases r with ⟨pf, mcal, d1⟩
      simp only [njMealsGo, hr] at h
      rcases njFoodsGo_ok db m.foods [] 0 d pf mcal d1 hr with
        ⟨pnew, hpf, hmc, hcal, hpro, hcarb, hfat⟩
      rcases ih _ _ _ _ h with ⟨msnew, hpm, htot, hdcal, hdpro, hdcarb, hdfat⟩
      rw [List.nil_append] at hpf
      subst hpf
      refine ⟨{ type := m.type, foods := pf, totalCalories := mcal } :: msnew,
        by simpa using hpm, ?_, ?_, ?_, ?_, ?_⟩
      · intro mo hmo
        rcases List.mem_cons.mp hmo with h0 | h0
        · subst h0
          simpa using hmc
        · exact htot mo h0
      all_goals
        simp only [List.map_cons, List.sum_cons, hdcal, hdpro, hdcarb, hdfat,
          hcal, hpro, hcarb, hfat]
      all_goals ring

lemma qIsInt_sum_mul (l : List ℚ) (h : ∀ x ∈ l, qIsInt (x * 10)) :
    qIsInt (l.sum * 10) := by
  induction l with
  | nil => simpa using qIsInt_zero
  | cons a t ih =>
    rw [List.sum_cons, add_mul]
    exact qIsInt_add (h a (by simp)) (ih fun x hx => h x (by simp [hx]))

lemma jsRound_tenth_eq_self (s : ℚ) (h : qIsInt (s * 10)) :
    jsRound (s * 10) / 10 = s := by
  rw [jsRound_eq_self _ h, mul_div_cancel_right₀ _ (by norm_num : (10:ℚ) ≠ 0)]

lemma rjFoodsGo_spec (db : FoodDb) :
    ∀ (items : List FoodItemIn) (acc : List RjFoodOut) (mt : DailyTotals),
      ∃ fnew, (rjFoodsGo db items acc mt).1 = acc ++ fnew
        ∧ (rjFoodsGo db items acc mt).2.calories =
            mt.calories + (fnew.filterMap RjFoodOut.calories).sum
        ∧ (rjFoodsGo db items acc mt).2.protein =
            mt.protein + (fnew.filterMap RjFoodOut.protein).sum
        ∧ (rjFoodsGo db items acc mt).2.carbohydrates =
            mt.carbohydrates + (fnew.filterMap RjFoodOut.carbohydrates).sum
        ∧ (rjFoodsGo db items acc mt).2.fat =
            mt.fat + (fnew.filterMap RjFoodOut.fat).sum
        ∧ (∀ x ∈ fnew.filterMap RjFoodOut.calories, qIsInt x)
        ∧ (∀ x ∈ fnew.filterMap RjFoodOut.protein, qIsInt (x * 10))
        ∧ (∀ x ∈ fnew.filterMap RjFoodOut.carbohydrates, qIsInt (x * 10))
        ∧ (∀ x ∈ fnew.filterMap RjFoodOut.fat, qIsInt (x * 10)) := by
  intro items
  induction items with
  | nil =>
    intro acc mt
    exact ⟨[], by simp [rjFoodsGo], by simp [rjFoodsGo], by simp [rjFoodsGo],
      by simp [rjFoodsGo], by simp [rjFoodsGo], by simp, by simp, by simp, by simp⟩
  | cons it rest ih =>
    intro acc mt
    cases hf : findFoodById db it.food with
    | none =>
      rcases ih (acc ++ [{ food := it.food, quantity := it.quantity, unit := it.unit
                           calories := none, protein := none
                           carbohydrates := none, fat := none }]) mt with
        ⟨fnew, h1, h2, h3, h4, h5, h6, h7, h8, h9⟩
      refine ⟨{ food := it.food, quantity := it.quantity, unit := it.unit
                calories := none, protein := none
                carbohydrates := none, fat := none } :: fnew, ?_, ?_, ?_, ?_, ?_, ?_, ?_, ?_, ?_⟩ <;>
        simp only [rjFoodsGo, hf, List.filterMap_cons, h1, h2, h3, h4, List.append_assoc,
          List.singleton_append]
      · exact h5
      · exact h6
      · exact h7
      · exact h8
      · exact h9
    | some food =>
      rcases ih (acc ++ [{ food := it.food, quantity := it.quantity, unit := it.unit
                           calories := some (rjItemFields food it.quantity).calories
                           protein := some (rjItemFields food it.quantity).protein
                           carbohydrates := some (rjItemFields food it.quantity).carbohydrates
                           fat := some (rjItemFields food it.quantity).fat }])
          { calories := mt.calories + (rjItemFields food it.quantity).calories
            protein := mt.protein + (rjItemFields food it.quantity).protein
            carbohydrates := mt.carbohydrates + (rjItemFields food it.quantity).carbohydrates
            fat := mt.fat + (rjItemFields food it.quantity).fat } with
        ⟨fnew, h1, h2, h3, h4, h5, h6, h7, h8, h9⟩
      refine ⟨{ food := it.food, quantity := it.quantity, unit := it.unit
                calories := some (rjItemFields food it.quantity).calories
                protein := some (rjItemFields food it.quantity).protein
                carbohydrates := some (rjItemFields food it.quantity).carbohydrates
                fat := some (rjItemFields food it.quantity).fat } :: fnew,
        ?_, ?_, ?_, ?_, ?_, ?_, ?_, ?_, ?_⟩
      · simp only [rjFoodsGo, hf, h1, List.append_assoc, List.singleton_append]
      · simp only [rjFoodsGo, hf, h2, List.filterMap_cons, List.sum_cons]
        ring
      · simp only [rjFoodsGo, hf, h3, List.filterMap_cons, List.sum_cons]
        ring
      · simp only [rjFoodsGo, hf, h4, List.filterMap_cons, List.sum_cons]
        ring
      · simp only [rjFoodsGo, hf, h5, List.filterMap_cons, List.sum_cons]
        ring
      · intro x hx
        simp only [List.filterMap_cons, List.mem_cons] at hx
        rcases hx with hx | hx
        · subst hx
          exact jsRound_qIsInt _
        · exact h6 x hx
      · intro x hx
        simp only [List.filterMap_cons, List.mem_cons] at hx
        rcases hx with hx | hx
        · subst hx
          rw [rjItemFields]
          simp only [div_mul_cancel₀ _ (by norm_num : (10:ℚ) ≠ 0)]
          exact jsRound_qIsInt _
        · exact h7 x hx
      · intro x hx
        simp only [List.filterMap_cons, List.mem_cons] at hx
        rcases hx with hx | hx
        · subst hx
          rw [rjItemFields]
          simp only [div_mul_cancel₀ _ (by norm_num : (10:ℚ) ≠ 0)]
          exact jsRound_qIsInt _
        · exact h8 x hx
      · intro x hx
        simp only [List.filterMap_cons, List.mem_cons] at hx
        rcases hx with hx | hx
        · subst hx
          rw [rjItemFields]
          simp only [div_mul_cancel₀ _ (by norm_num : (10:ℚ) ≠ 0)]
          exact jsRound_qIsInt _
        · exact h9 x hx

lemma rjMealsGo_spec (db : FoodDb) :
    ∀ (meals : List MealIn) (acc : List RjMealOut) (d : DailyTotals),
      ∃ msnew, (rjMealsGo db meals acc d).1 = acc ++ msnew
        ∧ (∀ mo ∈ msnew,
            mo.totalCalories = (mo.foods.filterMap RjFoodOut.calories).sum
            ∧ (∀ x ∈ mo.foods.filterMap RjFoodOut.calories, qIsInt x)
            ∧ (∀ x ∈ mo.foods.filterMap RjFoodOut.protein, qIsInt (x * 10))
            ∧ (∀ x ∈ mo.foods.filterMap RjFoodOut.carbohydrates, qIsInt (x * 10))
            ∧ (∀ x ∈ mo.foods.filterMap RjFoodOut.fat, qIsInt (x * 10)))
        ∧ (rjMealsGo db meals acc d).2.calories = d.calories +
            (msnew.map (fun mo => (mo.foods.filterMap RjFoodOut.calories).sum)).sum
        ∧ (rjMealsGo db meals acc d).2.protein = d.protein +
            (msnew.map (fun mo => (mo.foods.filterMap RjFoodOut.protein).sum)).sum
        ∧ (rjMealsGo db meals acc d).2.carbohydrates = d.carbohydrates +
            (msnew.map (fun mo => (mo.foods.filterMap RjFoodOut.carbohydrates).sum)).sum
        ∧ (rjMealsGo db meals acc d).2.fat = d.fat +
            (msnew.map (fun mo => (mo.foods.filterMap RjFoodOut.fat).sum)).sum := by
  intro meals
  induction meals with
  | nil =>
    intro acc d
    exact ⟨[], by simp [rjMealsGo], by simp, by simp [rjMealsGo], by simp [rjMealsGo],
      by simp [rjMealsGo], by simp [rjMealsGo]⟩
  | cons m rest ih =>
    intro acc d
    rcases rjFoodsGo_spec db m.foods [] ⟨0, 0, 0, 0⟩ with
      ⟨fnew, h1, h2, h3, h4, h5, h6, h7, h8, h9⟩
    rw [List.nil_append] at h1
    have hc : (rjFoodsGo db m.foods [] ⟨0, 0, 0, 0⟩).2.calories =
        (fnew.filterMap RjFoodOut.calories).sum := by simpa using h2
    have hp : (rjFoodsGo db m.foods [] ⟨0, 0, 0, 0⟩).2.protein =
        (fnew.filterMap RjFoodOut.protein).sum := by simpa using h3
    have hcb : (rjFoodsGo db m.foods [] ⟨0, 0, 0, 0⟩).2.carbohydrates =
        (fnew.filterMap RjFoodOut.carbohydrates).sum := by simpa using h4
    have hft : (rjFoodsGo db m.foods [] ⟨0, 0, 0, 0⟩).2.fat =
        (fnew.filterMap RjFoodOut.fat).sum := by simpa using h5
    have hstep : ∀ a dd, rjMealsGo db (m :: rest) a dd =
        rjMealsGo db rest
          (a ++ [{ type := m.type, foods := (rjFoodsGo db m.foods [] ⟨0, 0, 0, 0⟩).1
                   totalCalories := jsRound (rjFoodsGo db m.foods [] ⟨0, 0, 0, 0⟩).2.calories }])
          { calories := dd.calories + (rjFoodsGo db m.foods [] ⟨0, 0, 0, 0⟩).2.calories
            protein := dd.protein + (rjFoodsGo db m.foods [] ⟨0, 0, 0, 0⟩).2.protein
            carbohydrates := dd.carbohydrates + (rjFoodsGo db m.foods [] ⟨0, 0, 0, 0⟩).2.carbohydrates
            fat := dd.fat + (rjFoodsGo db m.foods [] ⟨0, 0, 0, 0⟩).2.fat } := fun a dd => rfl
    rcases ih (acc ++ [{ type := m.type, foods := (rjFoodsGo db m.foods [] ⟨0, 0, 0, 0⟩).1
                         totalCalories := jsRound (rjFoodsGo db m.foods [] ⟨0, 0, 0, 0⟩).2.calories }])
        { calories := d.calories + (rjFoodsGo db m.foods [] ⟨0, 0, 0, 0⟩).2.calories
          protein := d.protein + (rjFoodsGo db m.foods [] ⟨0, 0, 0, 0⟩).2.protein
          carbohydrates := d.carbohydrates + (rjFoodsGo db m.foods [] ⟨0, 0, 0, 0⟩).2.carbohydrates
          fat := d.fat + (rjFoodsGo db m.foods [] ⟨0, 0, 0, 0⟩).2.fat } with
      ⟨msnew, g1, g2, g3, g4, g5, g6⟩
    refine ⟨{ type := m.type, foods := (rjFoodsGo db m.foods [] ⟨0, 0, 0, 0⟩).1
              totalCalories := jsRound (rjFoodsGo db m.foods [] ⟨0, 0, 0, 0⟩).2.calories } :: msnew,
      ?_, ?_, ?_, ?_, ?_, ?_⟩
    · rw [hstep, g1, List.append_assoc, List.singleton_append]
    · intro mo hmo
      rcases List.mem_cons.mp hmo with h0 | h0
      · subst h0
        refine ⟨?_, ?_, ?_, ?_, ?_⟩
        · show jsRound (rjFoodsGo db m.foods [] ⟨0, 0, 0, 0⟩).2.calories = _
          rw [hc, h1]
          exact jsRound_eq_self _ (qIsInt_sum _ h6)
        · show ∀ x ∈ ((rjFoodsGo db m.foods [] ⟨0, 0, 0, 0⟩).1.filterMap RjFoodOut.calories), _
          rw [h1]; exact h6
        · show ∀ x ∈ ((rjFoodsGo db m.foods [] ⟨0, 0, 0, 0⟩).1.filterMap RjFoodOut.protein), _
          rw [h1]; exact h7
        · show ∀ x ∈ ((rjFoodsGo db m.foods [] ⟨0, 0, 0, 0⟩).1.filterMap RjFoodOut.carbohydrates), _
          rw [h1]; exact h8
        · show ∀ x ∈ ((rjFoodsGo db m.foods [] ⟨0, 0, 0, 0⟩).1.filterMap RjFoodOut.fat), _
          rw [h1]; exact h9
      · exact g2 mo h0
    · rw [hstep, g3]
      simp only [List.map_cons, List.sum_cons, h1, hc]
      ring
    · rw [hstep, g4]
      simp only [List.map_cons, List.sum_cons, h1, hp]
      ring
    · rw [hstep, g5]
      simp only [List.map_cons, List.sum_cons, h1, hcb]
      ring
    · rw [hstep, g6]
      simp only [List.map_cons, List.sum_cons, h1, hft]
      ring

lemma map_congr_mem {α β : Type} (l : List α) (f g : α → β)
    (h : ∀ a ∈ l, f a = g a) : l.map f = l.map g := by
  induction l with
  | nil => rfl
  | cons a t ih =>
    simp only [List.map_cons]
    rw [h a (by simp), ih fun x hx => h x (by simp [hx])]

/-- C6: meal totals and daily totals agree with per-item sums, in both
handlers. -/
theorem totals_consistent (db : FoodDb) (date : ℕ) (meals : List MealIn) :
    (∀ pm dT, njCalc db meals = Except.ok (pm, dT) →
      (∀ mo ∈ pm, mo.totalCalories = (mo.foods.map FoodItemOut.calories).sum)
      ∧ dT.calories = (pm.map MealOut.totalCalories).sum
      ∧ dT.calories = (pm.map (fun mo => (mo.foods.map FoodItemOut.calories).sum)).sum
      ∧ dT.protein = (pm.map (fun mo => (mo.foods.map FoodItemOut.protein).sum)).sum
      ∧ dT.carbohydrates =
          (pm.map (fun mo => (mo.foods.map FoodItemOut.carbohydrates).sum)).sum
      ∧ dT.fat = (pm.map (fun mo => (mo.foods.map FoodItemOut.fat).sum)).sum)
    ∧ (∀ mo ∈ (rjPostNutritionEntries db date meals).meals,
        mo.totalCalories = (mo.foods.filterMap RjFoodOut.calories).sum)
    ∧ (rjPostNutritionEntries db date meals).dailyTotals.calories =
        ((rjPostNutritionEntries db date meals).meals.map RjMealOut.totalCalories).sum
    ∧ (rjPostNutritionEntries db date meals).dailyTotals.calories =
        ((rjPostNutritionEntries db date meals).meals.map
          (fun mo => (mo.foods.filterMap RjFoodOut.calories).sum)).sum
    ∧ (rjPostNutritionEntries db date meals).dailyTotals.protein =
        ((rjPostNutritionEntries db date meals).meals.map
          (fun mo => (mo.foods.filterMap RjFoodOut.protein).sum)).sum
    ∧ (rjPostNutritionEntries db date meals).dailyTotals.carbohydrates =
        ((rjPostNutritionEntries db date meals).meals.map
          (fun mo => (mo.foods.filterMap RjFoodOut.carbohydrates).sum)).sum
    ∧ (rjPostNutritionEntries db date meals).dailyTotals.fat =
        ((rjPostNutritionEntries db date meals).meals.map
          (fun mo => (mo.foods.filterMap RjFoodOut.fat).sum)).sum := by
  constructor
  · intro pm dT h
    rcases njMealsGo_ok db meals [] ⟨0, 0, 0, 0⟩ pm dT h with
      ⟨msnew, hpm, htot, hcal, hpro, hcarb, hfat⟩
    rw [List.nil_append] at hpm
    subst hpm
    have hcal' : dT.calories =
        (pm.map (fun mo => (mo.foods.map FoodItemOut.calories).sum)).sum := by
      simpa using hcal
    refine ⟨htot, ?_, hcal', by simpa using hpro, by simpa using hcarb, by simpa using hfat⟩
    rw [map_congr_mem _ _ _ htot]
    exact hcal'
  · rcases rjMealsGo_spec db meals [] ⟨0, 0, 0, 0⟩ with ⟨msnew, h1, h2, h3, h4, h5, h6⟩
    rw [List.nil_append] at h1
    have hmeals : (rjPostNutritionEntries db date meals).meals =
        (rjMealsGo db meals [] ⟨0, 0, 0, 0⟩).1 := rfl
    have hdc : (rjPostNutritionEntries db date meals).dailyTotals.calories =
        jsRound (rjMealsGo db meals [] ⟨0, 0, 0, 0⟩).2.calories := rfl
    have hdp : (rjPostNutritionEntries db date meals).dailyTotals.protein =
        jsRound ((rjMealsGo db meals [] ⟨0, 0, 0, 0⟩).2.protein * 10) / 10 := rfl
    have hdcb : (rjPostNutritionEntries db date meals).dailyTotals.carbohydrates =
        jsRound ((rjMealsGo db meals [] ⟨0, 0, 0, 0⟩).2.carbohydrates * 10) / 10 := rfl
    have hdf : (rjPostNutritionEntries db date meals).dailyTotals.fat =
        jsRound ((rjMealsGo db meals [] ⟨0, 0, 0, 0⟩).2.fat * 10) / 10 := rfl
    have hc' : (rjMealsGo db meals [] ⟨0, 0, 0, 0⟩).2.calories =
        (msnew.map (fun mo => (mo.foods.filterMap RjFoodOut.calories).sum)).sum := by
      simpa using h3
    have hp' : (rjMealsGo db meals [] ⟨0, 0, 0, 0⟩).2.protein =
        (msnew.map (fun mo => (mo.foods.filterMap RjFoodOut.protein).sum)).sum := by
      simpa using h4
    have hcb' : (rjMealsGo db meals [] ⟨0, 0, 0, 0⟩).2.carbohydrates =
        (msnew.map (fun mo => (mo.foods.filterMap RjFoodOut.carbohydrates).sum)).sum := by
      simpa using h5
    have hf' : (rjMealsGo db meals [] ⟨0, 0, 0, 0⟩).2.fat =
        (msnew.map (fun mo => (mo.foods.filterMap RjFoodOut.fat).sum)).sum := by
      simpa using h6
    have hcalInt : qIsInt (rjMealsGo db meals [] ⟨0, 0, 0, 0⟩).2.calories := by
      rw [hc']
      refine qIsInt_sum _ ?_
      intro x hx
      rcases List.mem_map.mp hx with ⟨mo, hmo, hxe⟩
      subst hxe
      exact qIsInt_sum _ (h2 mo hmo).2.1
    have hcalEq : (rjPostNutritionEntries db date meals).dailyTotals.calories =
        (msnew.map (fun mo => (mo.foods.filterMap RjFoodOut.calories).sum)).sum := by
      rw [hdc, jsRound_eq_self _ hcalInt, hc']
    refine ⟨?_, ?_, ?_, ?_, ?_, ?_⟩
    · intro mo hmo
      rw [hmeals, h1] at hmo
      exact (h2 mo hmo).1
    · rw [hmeals, h1, hcalEq]
      rw [map_congr_mem _ _ _ (fun mo hmo => (h2 mo hmo).1)]
    · rw [hmeals, h1]
      exact hcalEq
    · rw [hmeals, h1, hdp, hp', jsRound_tenth_eq_self]
      refine qIsInt_sum_mul _ ?_
      intro x hx
      rcases List.mem_map.mp hx with ⟨mo, hmo, hxe⟩
      subst hxe
      exact qIsInt_sum_mul _ (h2 mo hmo).2.2.1
    · rw [hmeals, h1, hdcb, hcb', jsRound_tenth_eq_self]
      refine qIsInt_sum_mul _ ?_
      intro x hx
      rcases List.mem_map.mp hx with ⟨mo, hmo, hxe⟩
      subst hxe
      exact qIsInt_sum_mul _ (h2 mo hmo).2.2.2.1
    · rw [hmeals, h1, hdf, hf', jsRound_tenth_eq_self]
      refine qIsInt_sum_mul _ ?_
      intro x hx
      rcases List.mem_map.mp hx with ⟨mo, hmo, hxe⟩
      subst hxe
      exact qIsInt_sum_mul _ (h2 mo hmo).2.2.2.2

theorem totals_consistent_witness :
    njCalc wDbC6 wMealsC6 = Except.ok (wPmC6, wDtC6)
      ∧ wDtC6.calories = (wPmC6.map MealOut.totalCalories).sum
      ∧ wDtC6.protein = (wPmC6.map (fun mo => (mo.foods.map FoodItemOut.protein).sum)).sum
      ∧ (rjPostNutritionEntries wDbC6 0 wMealsC6).dailyTotals.calories =
          ((rjPostNutritionEntries wDbC6 0 wMealsC6).meals.map RjMealOut.totalCalories).sum := by
  have h : njCalc wDbC6 wMealsC6 = Except.ok (wPmC6, wDtC6) := by
    norm_num [njCalc, njMealsGo, njFoodsGo, njItem, findFoodById, wDbC6, wMealsC6, wPmC6, wDtC6]
  have hc := totals_consistent wDbC6 0 wMealsC6
  exact ⟨h, (hc.1 wPmC6 wDtC6 h).2.1, (hc.1 wPmC6 wDtC6 h).2.2.2.1, hc.2.2.1⟩

/-- C2 (code bug): at an input where the claim requires the crossing
0 < 50 ≤ 60 to mark the milestone (observation date 5, clock 10), the
handler instead throws at goals.js:245 — `goal.progressHistory` is not a
goalSchema path — and returns the 500 error, persisting nothing; no
milestone is ever marked by this route (its guard also reads
`milestone.targetValue`/`isCompleted`, which the schema spells
`value`/`achieved`). -/
theorem milestone_crossing_code_bug :
    updateProgressRun cGoalC2 60 none (some 5) 10 true =
        ⟨none, Except.error "Failed to update progress"⟩
      ∧ (updateProgressRun cGoalC2 60 none (some 5) 10 true).saved = none :=
  ⟨rfl, rfl⟩

/-- C4 (code bug): no goal-progress update ever persists anything — the
push onto the undefined `goal.progressHistory` throws before `goal.save()`
— so in particular no history record is ever appended and `currentValue`
is never overwritten in the store; the claim's would-succeed input yields
the 500 error. -/
theorem history_append_code_bug :
    (∀ (g : Goal) (value : ℚ) (notes : Option String) (date : Option ℕ)
        (now : ℕ) (notifOk : Bool),
        (updateProgressRun g value notes date now notifOk).saved = none)
      ∧ updateProgressRun wGoalC4 30 (some "n") (some 4) 9 true =
          ⟨none, Except.error "Failed to update progress"⟩ := by
  constructor
  · intro g value notes date now notifOk
    unfold updateProgressRun
    split <;> rfl
  · rfl

/-- C5 (code bug): `calculateGoalProgress` implements exactly the claimed
formula — never above 100, and 0 when targetValue = 0 instead of a
division error — but the progress update never reports it: the update
500s at goals.js:245 before the percentage is computed. -/
theorem progress_percentage_code_bug :
    (∀ g : Goal, calculateGoalProgress g ≤ 100)
      ∧ calculateGoalProgress wGoalC5 = 0
      ∧ calculateGoalProgress wGoalC5b = 100
      ∧ updateProgressRun wGoalC5 7 none none 2 true =
          ⟨none, Except.error "Failed to update progress"⟩ := by
  refine ⟨calculateGoalProgress_le, ?_, ?_, rfl⟩
  · norm_num [calculateGoalProgress, wGoalC5]
  · norm_num [calculateGoalProgress, wGoalC5b]

/-- C8 (code bug): two identical progress updates with value =
currentValue both fail with the 500 error and persist nothing, instead of
appending two history records; the second call runs against the unchanged
stored goal (the first saved nothing), and the achieved flag of the
already-achieved milestone is untouched because the route never writes
milestones at all. -/
theorem double_update_code_bug :
    updateProgressRun wGoalC8 5 none none 1 true =
        ⟨none, Except.error "Failed to update progress"⟩
      ∧ (updateProgressRun wGoalC8 5 none none 1 true).saved = none
      ∧ updateProgressRun wGoalC8 5 none none 2 true =
          ⟨none, Except.error "Failed to update progress"⟩ :=
  ⟨rfl, rfl, rfl⟩

/-- C9 (code bug): every progress update's response is an error — the
InvalidState 400 off the active path, the 500 on it — so the automatic
active → completed transition never executes (and `completedAt` is not a
schema path, so a completion stamp could never persist); concretely, the
would-complete input value = targetValue = 50 fails. -/
theorem status_machine_code_bug :
    (∀ (g : Goal) (value : ℚ) (notes : Option String) (date : Option ℕ)
        (now : ℕ) (notifOk : Bool),
        (updateProgressRun g value notes date now notifOk).response =
          Except.error (if g.status ≠ GoalStatus.active
            then "Cannot update progress on inactive goal"
            else "Failed to update progress"))
      ∧ updateProgressRun wGoalC9 50 none none 6 true =
          ⟨none, Except.error "Failed to update progress"⟩ := by
  constructor
  · intro g value notes date now notifOk
    unfold updateProgressRun
    by_cases h : g.status ≠ GoalStatus.active
    · rw [if_pos h, if_pos h]
    · rw [if_neg h, if_neg h]
  · rfl

/-- C10 (code bug): the progress update's outcome is identical whether or
not notification saves succeed — the TypeError at goals.js:245 fires
first, so `handleGoalCompletion` and `createMilestoneNotification` are
never invoked from this route, and the 500 the caller sees is not
notification-failure propagation; nothing is persisted either way.  (The
handler also has no try/catch around those calls, so a notification
failure could not be swallowed even on the intended path.) -/
theorem notification_code_bug :
    updateProgressRun cGoalC10 60 none none 7 false =
        ⟨none, Except.error "Failed to update progress"⟩
      ∧ updateProgressRun cGoalC10 60 none none 7 true =
          updateProgressRun cGoalC10 60 none none 7 false :=
  ⟨rfl, rfl⟩

end FitnessApp
